import Mathlib

/-!
# Coffee-shop distance ranking: a verification development

Shallow embedding of the algorithmic core of the coffee-shops application:
the haversine distance routine `calculateDistance` (two variants: the one in
`src/app/page.tsx`, which works with the Earth radius in metres and rounds the
kilometre result to two decimals, and the one in `src/unnamed/part_000`, which
works in kilometres and returns the raw value), and the ranking pipeline of
`fetchCoffeeShops`: map each fetched node to a record carrying its distance
from the user's location, sort ascending by distance with JavaScript's stable
`Array.prototype.sort`, and truncate with `slice(0, 5)`.

JavaScript numbers are modelled as real numbers, `Math.sin`/`Math.cos`/
`Math.sqrt`/`Math.atan2`/`Math.round` as their exact real counterparts, and
the stable sort by the `(a, b) => a.distance - b.distance` comparator as a
stable insertion sort by the `distance` key.
-/

namespace CoffeeShops

/-- A point of interest as delivered by the Overpass API response
(`data.elements` in both implementations): a numeric id, coordinates and an
optional display name (`node.tags.name`). -/
structure OverpassNode where
  id : Int
  lat : Real
  lon : Real
  tagName : Option String

/-- The `CoffeeShop` record built by the `.map` step of `fetchCoffeeShops`
in `src/app/page.tsx`: string id, display name (defaulted when the node has
none), coordinates, and the computed distance from the user's location. -/
structure CoffeeShop where
  id : String
  name : String
  lat : Real
  lon : Real
  distance : Real

/-- The user's location (`Location` in `src/app/page.tsx`). -/
structure Location where
  lat : Real
  lon : Real

/-- JavaScript's `Math.atan2 (y, x)` on finite real arguments: the angle of
the point `(x, y)`, in `(-pi, pi]`, with the conventions of the ECMAScript
specification for finite inputs (`atan2 0 0 = 0` for positive zeros). -/
noncomputable def atan2 (y x : Real) : Real :=
  if 0 < x then Real.arctan (y / x)
  else if x < 0 then
    (if 0 ≤ y then Real.arctan (y / x) + Real.pi else Real.arctan (y / x) - Real.pi)
  else
    (if 0 < y then Real.pi / 2 else if y < 0 then -(Real.pi / 2) else 0)

/-- JavaScript's `Math.round` on finite reals: round to the nearest integer,
halves toward positive infinity, i.e. the floor of `x + 1/2`. -/
noncomputable def jsRound (x : Real) : Real := (Int.floor (x + 1 / 2) : Real)

namespace Page

/-- `calculateDistance` from `src/app/page.tsx` (lines 94-111): haversine
formula with the Earth radius `R = 6371e3` metres; the result is converted to
kilometres and rounded to two decimal places
(`Math.round((R * c) / 1000 * 100) / 100`). -/
noncomputable def calculateDistance (lat1 lon1 lat2 lon2 : Real) : Real :=
  let R : Real := 6371e3
  let φ1 := lat1 * Real.pi / 180
  let φ2 := lat2 * Real.pi / 180
  let Δφ := (lat2 - lat1) * Real.pi / 180
  let Δlam := (lon2 - lon1) * Real.pi / 180
  let a := Real.sin (Δφ / 2) * Real.sin (Δφ / 2) +
    Real.cos φ1 * Real.cos φ2 * Real.sin (Δlam / 2) * Real.sin (Δlam / 2)
  let c := 2 * atan2 (Real.sqrt a) (Real.sqrt (1 - a))
  jsRound (R * c / 1000 * 100) / 100

end Page

namespace Part

/-- `calculateDistance` from `src/unnamed/part_000` (both copies in that file
are textually identical): haversine formula with `R = 6371` kilometres,
returning the raw (unrounded) value `R * c`. -/
noncomputable def calculateDistance (lat1 lon1 lat2 lon2 : Real) : Real :=
  let R : Real := 6371
  let dLat := (lat2 - lat1) * (Real.pi / 180)
  let dLon := (lon2 - lon1) * (Real.pi / 180)
  let a := Real.sin (dLat / 2) * Real.sin (dLat / 2) +
    Real.cos (lat1 * (Real.pi / 180)) * Real.cos (lat2 * (Real.pi / 180)) *
      Real.sin (dLon / 2) * Real.sin (dLon / 2)
  let c := 2 * atan2 (Real.sqrt a) (Real.sqrt (1 - a))
  R * c

end Part

/-- Proof-infrastructure abbreviation: the haversine `a` term shared by both
implementations (they compute the same real; `src/app/page.tsx` merely
associates the `pi / 180` factor differently). -/
noncomputable def havA (lat1 lon1 lat2 lon2 : Real) : Real :=
  Real.sin ((lat2 - lat1) * (Real.pi / 180) / 2) *
      Real.sin ((lat2 - lat1) * (Real.pi / 180) / 2) +
    Real.cos (lat1 * (Real.pi / 180)) * Real.cos (lat2 * (Real.pi / 180)) *
      Real.sin ((lon2 - lon1) * (Real.pi / 180) / 2) *
      Real.sin ((lon2 - lon1) * (Real.pi / 180) / 2)

/-- Default display name used by `src/app/page.tsx` when a node has no
`tags.name`. -/
def defaultShopName : String := "Unnamed Coffee Shop"

/-- The `.map` step of `fetchCoffeeShops`: annotate every fetched node with
its distance from the user's location. Generic in the distance function so
that it covers both implementations (which differ only in that function). -/
noncomputable def rankShops (dist : Real → Real → Real → Real → Real)
    (loc : Location) (nodes : List OverpassNode) : List CoffeeShop :=
  nodes.map fun node =>
    ⟨toString node.id, node.tagName.getD defaultShopName, node.lat, node.lon,
      dist loc.lat loc.lon node.lat node.lon⟩

/-- The ordering implemented by the comparator
`(a, b) => a.distance - b.distance`: ascending by the `distance` key. -/
def distLE (a b : CoffeeShop) : Prop := a.distance ≤ b.distance

noncomputable instance : DecidableRel distLE :=
  fun a b => Real.decidableLE a.distance b.distance

instance : IsTotal CoffeeShop distLE := ⟨fun a b => le_total a.distance b.distance⟩

instance : IsTrans CoffeeShop distLE := ⟨fun _ _ _ h h2 => le_trans h h2⟩

/-- The `.sort((a, b) => a.distance - b.distance)` step. JavaScript's
`Array.prototype.sort` is a stable sort, and with this comparator it orders
ascending by `distance`, ties keeping input order; it is modelled as the
stable insertion sort by the `distance` key. -/
noncomputable def sortShops (l : List CoffeeShop) : List CoffeeShop :=
  l.insertionSort distLE

/-- Modelled from the spec: the `nearest(origin, candidates, k)` operation.
The code performs exactly this pipeline (`.map` the distance annotation,
stable-sort ascending by distance, truncate) but fixes `k = 5` via
`.slice(0, 5)`; the spec generalises the truncation bound to an integer `k`,
with `k <= 0` yielding the empty sequence, which `Int.toNat` realises. -/
noncomputable def nearestWith (dist : Real → Real → Real → Real → Real)
    (loc : Location) (nodes : List OverpassNode) (k : Int) : List CoffeeShop :=
  (sortShops (rankShops dist loc nodes)).take k.toNat

/-- The ranking with the distance function of `src/app/page.tsx`; the call
site there is `nearest loc nodes 5`. -/
noncomputable def nearest (loc : Location) (nodes : List OverpassNode)
    (k : Int) : List CoffeeShop :=
  nearestWith Page.calculateDistance loc nodes k

/-- The local variables of the body of `fetchCoffeeShops` after the response
arrives, for the state-passing embedding: the user's location read by the
call, the fetched `data.elements` list, the mapped-then-sorted `shops` array,
and the truncated result handed to the presentation layer. -/
structure FetchLocals where
  location : Location
  elements : List OverpassNode
  shops : List CoffeeShop
  sortedShops : List CoffeeShop

/-- State-passing embedding of the ranking statements of `fetchCoffeeShops`:
`shops` is freshly allocated by `.map` over `data.elements`; the JavaScript
in-place `.sort` mutates that fresh array only (reflected by `shops` holding
the sorted list in the final state), never `data.elements` or `location`,
which are only read. The record holds each variable's value when the call
finishes. -/
noncomputable def runFetchCore (dist : Real → Real → Real → Real → Real)
    (loc : Location) (elements : List OverpassNode) : FetchLocals :=
  let shops0 := rankShops dist loc elements
  let shops1 := sortShops shops0
  ⟨loc, elements, shops1, shops1.take 5⟩

/-- A sample fetched node, used in concrete instantiations. -/
def sampleNode : OverpassNode := ⟨1, 0, 0, none⟩

/-- A sample origin, used in concrete instantiations. -/
def origin0 : Location := ⟨0, 0⟩

end CoffeeShops

namespace CoffeeShops

theorem atan2_zero_one : atan2 0 1 = 0 := by
  simp [atan2, Real.arctan_zero]

theorem atan2_nonneg {y x : Real} (hy : 0 ≤ y) (hx : 0 ≤ x) : 0 ≤ atan2 y x := by
  rw [atan2]
  split_ifs with h1 h2 h3 h4 h5
  · have h := Real.arctan_strictMono.monotone (div_nonneg hy (le_of_lt h1))
    simpa [Real.arctan_zero] using h
  all_goals first | linarith | linarith [Real.pi_pos]

theorem atan2_sin_cos {θ : Real} (h1 : -(Real.pi / 2) < θ) (h2 : θ < Real.pi / 2) :
    atan2 (Real.sin θ) (Real.cos θ) = θ := by
  have hc : 0 < Real.cos θ := Real.cos_pos_of_mem_Ioo ⟨h1, h2⟩
  rw [atan2, if_pos hc, ← Real.tan_eq_sin_div_cos, Real.arctan_tan h1 h2]

theorem Part_calculateDistance_eq (lat1 lon1 lat2 lon2 : Real) :
    Part.calculateDistance lat1 lon1 lat2 lon2 =
      6371 * (2 * atan2 (Real.sqrt (havA lat1 lon1 lat2 lon2))
        (Real.sqrt (1 - havA lat1 lon1 lat2 lon2))) := rfl

theorem Page_calculateDistance_eq (lat1 lon1 lat2 lon2 : Real) :
    Page.calculateDistance lat1 lon1 lat2 lon2 =
      jsRound (6371e3 * (2 * atan2 (Real.sqrt (havA lat1 lon1 lat2 lon2))
        (Real.sqrt (1 - havA lat1 lon1 lat2 lon2))) / 1000 * 100) / 100 := by
  simp only [Page.calculateDistance, havA, mul_div_assoc]

theorem havA_symm (lat1 lon1 lat2 lon2 : Real) :
    havA lat1 lon1 lat2 lon2 = havA lat2 lon2 lat1 lon1 := by
  rw [havA, havA,
    show (lat1 - lat2) * (Real.pi / 180) / 2 = -((lat2 - lat1) * (Real.pi / 180) / 2) from
      by ring,
    show (lon1 - lon2) * (Real.pi / 180) / 2 = -((lon2 - lon1) * (Real.pi / 180) / 2) from
      by ring,
    Real.sin_neg, Real.sin_neg]
  ring

theorem havA_self (lat lon : Real) : havA lat lon lat lon = 0 := by
  simp [havA]

theorem jsRound_zero : jsRound 0 = 0 := by
  have h : Int.floor ((0 : Real) + 1 / 2) = 0 := by
    rw [Int.floor_eq_zero_iff]
    constructor <;> norm_num
  rw [jsRound, h, Int.cast_zero]

theorem jsRound_nonneg {x : Real} (hx : 0 ≤ x) : 0 ≤ jsRound x := by
  rw [jsRound]
  have h : (0 : Int) ≤ Int.floor (x + 1 / 2) := Int.floor_nonneg.mpr (by linarith)
  exact_mod_cast h

/-- Claim C4: for every coordinate with latitude in [-90, 90] and longitude in
[-180, 180], the distance from the coordinate to itself is exactly 0, in both
implementations of `calculateDistance`. -/
theorem distance_self_eq_zero (lat lon : Real)
    (h1 : -90 ≤ lat) (h2 : lat ≤ 90) (h3 : -180 ≤ lon) (h4 : lon ≤ 180) :
    Page.calculateDistance lat lon lat lon = 0 ∧
      Part.calculateDistance lat lon lat lon = 0 := by
  constructor
  · rw [Page_calculateDistance_eq, havA_self]
    simp [Real.sqrt_zero, sub_zero, Real.sqrt_one, atan2_zero_one, jsRound_zero]
  · rw [Part_calculateDistance_eq, havA_self]
    simp [Real.sqrt_zero, sub_zero, Real.sqrt_one, atan2_zero_one]

/-- Witness for claim C4 at the concrete coordinate (0, 0). -/
theorem distance_self_eq_zero_witness :
    (-90 : Real) ≤ 0 ∧ (0 : Real) ≤ 90 ∧ (-180 : Real) ≤ 0 ∧ (0 : Real) ≤ 180 ∧
      Page.calculateDistance 0 0 0 0 = 0 ∧ Part.calculateDistance 0 0 0 0 = 0 :=
  ⟨by norm_num, by norm_num, by norm_num, by norm_num,
    (distance_self_eq_zero 0 0 (by norm_num) (by norm_num) (by norm_num) (by norm_num)).1,
    (distance_self_eq_zero 0 0 (by norm_num) (by norm_num) (by norm_num) (by norm_num)).2⟩

/-- Claim C6: for every pair of well-formed coordinates (latitude in [-90, 90],
longitude in [-180, 180]), both implementations of `calculateDistance` return a
non-negative real number. -/
theorem distance_nonneg (lat1 lon1 lat2 lon2 : Real)
    (h1 : -90 ≤ lat1) (h2 : lat1 ≤ 90) (h3 : -180 ≤ lon1) (h4 : lon1 ≤ 180)
    (h5 : -90 ≤ lat2) (h6 : lat2 ≤ 90) (h7 : -180 ≤ lon2) (h8 : lon2 ≤ 180) :
    0 ≤ Page.calculateDistance lat1 lon1 lat2 lon2 ∧
      0 ≤ Part.calculateDistance lat1 lon1 lat2 lon2 := by
  have hc : 0 ≤ atan2 (Real.sqrt (havA lat1 lon1 lat2 lon2))
      (Real.sqrt (1 - havA lat1 lon1 lat2 lon2)) :=
    atan2_nonneg (Real.sqrt_nonneg _) (Real.sqrt_nonneg _)
  constructor
  · rw [Page_calculateDistance_eq]
    have harg : 0 ≤ 6371e3 * (2 * atan2 (Real.sqrt (havA lat1 lon1 lat2 lon2))
        (Real.sqrt (1 - havA lat1 lon1 lat2 lon2))) / 1000 * 100 := by nlinarith
    exact div_nonneg (jsRound_nonneg harg) (by norm_num)
  · rw [Part_calculateDistance_eq]
    nlinarith

/-- Witness for claim C6 at the concrete coordinates (0, 0) and (0, 0). -/
theorem distance_nonneg_witness :
    (-90 : Real) ≤ 0 ∧ (0 : Real) ≤ 90 ∧ (-180 : Real) ≤ 0 ∧ (0 : Real) ≤ 180 ∧
      0 ≤ Page.calculateDistance 0 0 0 0 ∧ 0 ≤ Part.calculateDistance 0 0 0 0 :=
  ⟨by norm_num, by norm_num, by norm_num, by norm_num,
    (distance_nonneg 0 0 0 0 (by norm_num) (by norm_num) (by norm_num) (by norm_num)
      (by norm_num) (by norm_num) (by norm_num) (by norm_num)).1,
    (distance_nonneg 0 0 0 0 (by norm_num) (by norm_num) (by norm_num) (by norm_num)
      (by norm_num) (by norm_num) (by norm_num) (by norm_num)).2⟩

/-- Claim C7: for every origin, every distance function and every `k`,
`nearest` on an empty candidate list returns the empty sequence. In the
embedding `nearestWith` is a total function, so this is an ordinary value, not
an error. -/
theorem nearest_empty_candidates (dist : Real → Real → Real → Real → Real)
    (loc : Location) (k : Int) : nearestWith dist loc [] k = [] := by
  simp [nearestWith, sortShops, rankShops]

/-- Claim C8: for every origin, every candidate list and every integer
`k ≤ 0`, `nearest` returns the empty sequence. -/
theorem nearest_nonpos_k (dist : Real → Real → Real → Real → Real)
    (loc : Location) (nodes : List OverpassNode) (k : Int) (hk : k ≤ 0) :
    nearestWith dist loc nodes k = [] := by
  rw [nearestWith, Int.toNat_of_nonpos hk, List.take_zero]

/-- Witness for claim C8 with `k = -1` on a one-candidate list. -/
theorem nearest_nonpos_k_witness :
    (-1 : Int) ≤ 0 ∧
      nearestWith Page.calculateDistance origin0 [sampleNode] (-1) = [] :=
  ⟨by decide,
    nearest_nonpos_k Page.calculateDistance origin0 [sampleNode] (-1) (by decide)⟩

/-- Claim C9: the ranking computation is free of side effects on its inputs:
in the state-passing embedding of `fetchCoffeeShops`, the candidate list
(`data.elements`) and the origin after the call are the very values passed in,
the in-place sort having touched only the freshly allocated mapped array, and
the produced ranking is the pure function `nearestWith` of the inputs. -/
theorem fetch_frame (dist : Real → Real → Real → Real → Real)
    (loc : Location) (elements : List OverpassNode) :
    (runFetchCore dist loc elements).elements = elements ∧
      (runFetchCore dist loc elements).location = loc ∧
      (runFetchCore dist loc elements).shops =
        sortShops (rankShops dist loc elements) ∧
      (runFetchCore dist loc elements).sortedShops =
        nearestWith dist loc elements 5 :=
  ⟨rfl, rfl, rfl, rfl⟩


theorem havA_fixture :
    havA 0 0 0 1 = Real.sin (Real.pi / 360) * Real.sin (Real.pi / 360) := by
  rw [havA, show ((0 : Real) - 0) * (Real.pi / 180) / 2 = 0 from by ring,
    show ((1 : Real) - 0) * (Real.pi / 180) / 2 = Real.pi / 360 from by ring,
    show (0 : Real) * (Real.pi / 180) = 0 from by ring]
  simp [Real.sin_zero, Real.cos_zero]

theorem atan2_fixture :
    atan2 (Real.sqrt (havA 0 0 0 1)) (Real.sqrt (1 - havA 0 0 0 1)) =
      Real.pi / 360 := by
  have hpos := Real.pi_pos
  have hs : Real.sqrt (havA 0 0 0 1) = Real.sin (Real.pi / 360) := by
    rw [havA_fixture, Real.sqrt_mul_self
      (Real.sin_nonneg_of_nonneg_of_le_pi (by linarith) (by linarith))]
  have hcpos : 0 < Real.cos (Real.pi / 360) :=
    Real.cos_pos_of_mem_Ioo ⟨by linarith, by linarith⟩
  have hc : Real.sqrt (1 - havA 0 0 0 1) = Real.cos (Real.pi / 360) := by
    rw [havA_fixture,
      show 1 - Real.sin (Real.pi / 360) * Real.sin (Real.pi / 360) =
          Real.cos (Real.pi / 360) * Real.cos (Real.pi / 360) from by
        have h := Real.sin_sq_add_cos_sq (Real.pi / 360)
        rw [pow_two, pow_two] at h
        linarith,
      Real.sqrt_mul_self (le_of_lt hcpos)]
  rw [hs, hc]
  exact atan2_sin_cos (by linarith) (by linarith)

theorem part_fixture_val : Part.calculateDistance 0 0 0 1 = 6371 * (Real.pi / 180) := by
  rw [Part_calculateDistance_eq, atan2_fixture]
  ring

theorem page_fixture_val :
    Page.calculateDistance 0 0 0 1 = jsRound (637100 * Real.pi / 180) / 100 := by
  rw [Page_calculateDistance_eq, atan2_fixture,
    show (6371e3 : Real) * (2 * (Real.pi / 360)) / 1000 * 100 = 637100 * Real.pi / 180 from
      by ring]

/-- Claim C3: both implementations compute the haversine great-circle distance
on a sphere of radius 6371 km, reported in kilometres; on the spec fixture, the
distance between (0, 0) and (0, 1) is within 0.5 km of 111.19 km for each of
them. -/
theorem distance_fixture :
    |Page.calculateDistance 0 0 0 1 - 111.19| ≤ 0.5 ∧
      |Part.calculateDistance 0 0 0 1 - 111.19| ≤ 0.5 := by
  have hlo := Real.pi_gt_d6
  have hhi := Real.pi_lt_d6
  constructor
  · rw [page_fixture_val]
    have hfl : (Int.floor (637100 * Real.pi / 180 + 1 / 2) : Real) ≤
        637100 * Real.pi / 180 + 1 / 2 := Int.floor_le _
    have hfu : 637100 * Real.pi / 180 + 1 / 2 <
        (Int.floor (637100 * Real.pi / 180 + 1 / 2) : Real) + 1 := Int.lt_floor_add_one _
    rw [jsRound, abs_le]
    constructor <;> nlinarith
  · rw [part_fixture_val, abs_le]
    constructor <;> nlinarith

/-- Claim C5: for every pair of coordinates within the stated ranges, both
implementations of `calculateDistance` are symmetric in their two coordinate
arguments; in the real-number model the equality is exact, so in particular it
holds within the stated 1e-9 relative tolerance. -/
theorem distance_symm (lat1 lon1 lat2 lon2 : Real)
    (h1 : -90 ≤ lat1) (h2 : lat1 ≤ 90) (h3 : -180 ≤ lon1) (h4 : lon1 ≤ 180)
    (h5 : -90 ≤ lat2) (h6 : lat2 ≤ 90) (h7 : -180 ≤ lon2) (h8 : lon2 ≤ 180) :
    Page.calculateDistance lat1 lon1 lat2 lon2 =
        Page.calculateDistance lat2 lon2 lat1 lon1 ∧
      Part.calculateDistance lat1 lon1 lat2 lon2 =
        Part.calculateDistance lat2 lon2 lat1 lon1 ∧
      |Page.calculateDistance lat1 lon1 lat2 lon2 -
          Page.calculateDistance lat2 lon2 lat1 lon1| ≤
        1e-9 * |Page.calculateDistance lat1 lon1 lat2 lon2| ∧
      |Part.calculateDistance lat1 lon1 lat2 lon2 -
          Part.calculateDistance lat2 lon2 lat1 lon1| ≤
        1e-9 * |Part.calculateDistance lat1 lon1 lat2 lon2| := by
  have hpage : Page.calculateDistance lat1 lon1 lat2 lon2 =
      Page.calculateDistance lat2 lon2 lat1 lon1 := by
    rw [Page_calculateDistance_eq, Page_calculateDistance_eq, havA_symm]
  have hpart : Part.calculateDistance lat1 lon1 lat2 lon2 =
      Part.calculateDistance lat2 lon2 lat1 lon1 := by
    rw [Part_calculateDistance_eq, Part_calculateDistance_eq, havA_symm]
  refine ⟨hpage, hpart, ?_, ?_⟩
  · rw [hpage, sub_self, abs_zero]
    positivity
  · rw [hpart, sub_self, abs_zero]
    positivity

/-- Witness for claim C5 at the concrete coordinates (0, 0) and (0, 1). -/
theorem distance_symm_witness :
    (-90 : Real) ≤ 0 ∧ (0 : Real) ≤ 90 ∧ (-180 : Real) ≤ 1 ∧ (1 : Real) ≤ 180 ∧
      Page.calculateDistance 0 0 0 1 = Page.calculateDistance 0 1 0 0 ∧
      Part.calculateDistance 0 0 0 1 = Part.calculateDistance 0 1 0 0 :=
  ⟨by norm_num, by norm_num, by norm_num, by norm_num,
    (distance_symm 0 0 0 1 (by norm_num) (by norm_num) (by norm_num) (by norm_num)
      (by norm_num) (by norm_num) (by norm_num) (by norm_num)).1,
    (distance_symm 0 0 0 1 (by norm_num) (by norm_num) (by norm_num) (by norm_num)
      (by norm_num) (by norm_num) (by norm_num) (by norm_num)).2.1⟩

/-- Claim C10: the `src/app/page.tsx` implementation returns the raw haversine
kilometre value rounded to two decimal places: it equals
`Math.round(100 * raw) / 100`, where `raw` is exactly the (unrounded) value
returned by the `src/unnamed/part_000` implementation, and is therefore always
an integer multiple of 0.01. -/
theorem page_rounds_part_raw (lat1 lon1 lat2 lon2 : Real) :
    Page.calculateDistance lat1 lon1 lat2 lon2 =
        jsRound (100 * Part.calculateDistance lat1 lon1 lat2 lon2) / 100 ∧
      ∃ n : Int, Page.calculateDistance lat1 lon1 lat2 lon2 = (n : Real) / 100 := by
  have h : Page.calculateDistance lat1 lon1 lat2 lon2 =
      jsRound (100 * Part.calculateDistance lat1 lon1 lat2 lon2) / 100 := by
    rw [Page_calculateDistance_eq, Part_calculateDistance_eq,
      show (6371e3 : Real) * (2 * atan2 (Real.sqrt (havA lat1 lon1 lat2 lon2))
            (Real.sqrt (1 - havA lat1 lon1 lat2 lon2))) / 1000 * 100 =
          100 * (6371 * (2 * atan2 (Real.sqrt (havA lat1 lon1 lat2 lon2))
            (Real.sqrt (1 - havA lat1 lon1 lat2 lon2)))) from by ring]
  refine ⟨h, Int.floor (100 * Part.calculateDistance lat1 lon1 lat2 lon2 + 1 / 2), ?_⟩
  rw [h, jsRound]


theorem sorted_sortShops (l : List CoffeeShop) : List.Sorted distLE (sortShops l) :=
  List.sorted_insertionSort distLE l

theorem filter_orderedInsert (v : Real) (x : CoffeeShop) (l : List CoffeeShop) :
    (List.orderedInsert distLE x l).filter (fun s => decide (s.distance = v)) =
      (x :: l).filter (fun s => decide (s.distance = v)) := by
  induction l with
  | nil => rfl
  | cons b l ih =>
    by_cases h : distLE x b
    · simp only [List.orderedInsert, if_pos h]
    · simp only [List.orderedInsert, if_neg h]
      have h2 : ¬(x.distance ≤ b.distance) := h
      have hlt : b.distance < x.distance := lt_of_not_le h2
      by_cases hb : b.distance = v
      · have hx : ¬x.distance = v := by
          intro hx
          rw [hx] at hlt
          exact absurd hb (ne_of_lt hlt)
        simp [List.filter_cons, hb, hx, ih]
      · simp [List.filter_cons, hb, ih]

theorem filter_sortShops (v : Real) (l : List CoffeeShop) :
    (sortShops l).filter (fun s => decide (s.distance = v)) =
      l.filter (fun s => decide (s.distance = v)) := by
  induction l with
  | nil => rfl
  | cons x l ih =>
    have ih2 : (List.insertionSort distLE l).filter (fun s => decide (s.distance = v)) =
        l.filter (fun s => decide (s.distance = v)) := ih
    show (List.orderedInsert distLE x (List.insertionSort distLE l)).filter
        (fun s => decide (s.distance = v)) = _
    rw [filter_orderedInsert, List.filter_cons, List.filter_cons, ih2]

theorem filter_take_eq_take_filter (p : CoffeeShop → Bool) (n : Nat)
    (l : List CoffeeShop) :
    (l.take n).filter p = (l.filter p).take ((l.take n).filter p).length := by
  have h : l.filter p = (l.take n).filter p ++ (l.drop n).filter p := by
    rw [← List.filter_append, List.take_append_drop]
  rw [h, List.take_left]

/-- Claim C2: `nearest` returns exactly `min k (number of candidates)` results
— so never more than `k` and never more than the candidate count — and is by
construction the first `k` entries of the distance-sorted annotated sequence.
-/
theorem nearest_length (dist : Real → Real → Real → Real → Real)
    (loc : Location) (nodes : List OverpassNode) (k : Int) :
    (nearestWith dist loc nodes k).length = min k.toNat nodes.length ∧
      nearestWith dist loc nodes k =
        (sortShops (rankShops dist loc nodes)).take k.toNat := by
  refine ⟨?_, rfl⟩
  simp only [nearestWith, List.length_take, sortShops, List.length_insertionSort,
    rankShops, List.length_map]

/-- Claim C1: for every origin, distance function and `k`, the output of
`nearest` is sorted ascending by the computed distance (pairwise, hence for
every adjacent pair of the output), and the sort is stable: for every distance
value `v`, the output's elements at distance `v` form, in order, a prefix of
the annotated input's elements at distance `v`, so candidates at equal
distance keep their input relative order. -/
theorem nearest_sorted_stable (dist : Real → Real → Real → Real → Real)
    (loc : Location) (nodes : List OverpassNode) (k : Int) :
    List.Sorted distLE (nearestWith dist loc nodes k) ∧
      ∀ v : Real,
        (nearestWith dist loc nodes k).filter (fun s => decide (s.distance = v)) =
          ((rankShops dist loc nodes).filter (fun s => decide (s.distance = v))).take
            ((nearestWith dist loc nodes k).filter
              (fun s => decide (s.distance = v))).length := by
  constructor
  · exact List.Pairwise.sublist (List.take_sublist _ _)
      (sorted_sortShops (rankShops dist loc nodes))
  · intro v
    simp only [nearestWith]
    conv_lhs => rw [filter_take_eq_take_filter (fun s => decide (s.distance = v))
      k.toNat (sortShops (rankShops dist loc nodes))]
    rw [filter_sortShops]

end CoffeeShops
